import Mathlib

/-!
Verification development for the sun-exposure segmentation algorithm of the
`veil` repository.  The repository contains two independent variants of the
algorithm:

* the inline variant in `src/unnamed/part_000` (`getSunPosition`, `getBearing`,
  `calculateDistance`, `timePerSegment`, `getSunAzimuth`, and the traversal
  inside `drawRouteSun`), and
* the variant in `src/src/app/map/page.tsx` (same function names, but a
  different wrap convention, horizon threshold, default speed, and clock
  ordering).

The embedding models JavaScript numbers by exact rationals.  Calls into the
JavaScript `Math` object (`Math.sin`, `Math.cos`, `Math.tan`, `Math.asin`,
`Math.atan2`, `Math.sqrt`, `Math.PI`) are kept as an explicit parameter
(`MathOps`), since those are external library functions, not code of this
repository; every theorem below either holds for all instantiations of the
parameter or evaluates a stated concrete instantiation.  A second layer
(`JsNum`) adds the non-finite value (NaN) of JavaScript numbers, with the
JavaScript semantics that arithmetic propagates NaN and every comparison
with NaN is false; that layer settles the claims about invalid inputs.
-/

namespace Veil

/-- The JavaScript `Math` functions used by the source, as an abstract
parameter of the embedding. -/
structure MathOps where
  sin : ℚ → ℚ
  cos : ℚ → ℚ
  tan : ℚ → ℚ
  asin : ℚ → ℚ
  atan2 : ℚ → ℚ → ℚ
  sqrt : ℚ → ℚ
  pi : ℚ

/-- Floor of a rational, written with `Int.fdiv` so that it evaluates inside
the kernel (the denominator of a `Rat` is positive, so this is the floor). -/
def ratFloor (q : ℚ) : ℤ := Int.fdiv q.num q.den

/-- Truncation toward zero, as used by the JavaScript `%` operator. -/
def jsTrunc (q : ℚ) : ℤ := if q < 0 then -ratFloor (-q) else ratFloor q

/-- The JavaScript remainder operator `a % b` (sign follows the dividend). -/
def jsMod (a b : ℚ) : ℚ := a - b * (jsTrunc (a / b) : ℚ)

/-- JavaScript `Math.round`: rounds half-way cases toward positive infinity. -/
def jsRound (q : ℚ) : ℤ := ratFloor (q + 1 / 2)

/-- A route coordinate, `type Coordinate = { lat: number; lng: number }`. -/
structure Coordinate where
  lat : ℚ
  lng : ℚ
deriving DecidableEq, Repr

/-- From `getSunPosition` in part_000: `toDays(date) = toJulian(date) - J2000`
with `toJulian(date) = date.getTime() / dayMs - 0.5 + J1970`. -/
def toDays (dateMs : ℚ) : ℚ := dateMs / (1000 * 60 * 60 * 24) - 0.5 + 2440588 - 2451545

/-- part_000 `rightAscension`. -/
def rightAscension (M : MathOps) (l b : ℚ) : ℚ :=
  M.atan2 (M.sin l * M.cos 0.409093 - M.tan b * M.sin 0.409093) (M.cos l)

/-- part_000 `declination`. -/
def declination (M : MathOps) (l b : ℚ) : ℚ :=
  M.asin (M.sin b * M.cos 0.409093 + M.cos b * M.sin 0.409093 * M.sin l)

/-- part_000 `azimuth` helper inside `getSunPosition`. -/
def azimuthOf (M : MathOps) (H phi dec : ℚ) : ℚ :=
  M.atan2 (M.sin H) (M.cos H * M.sin phi - M.tan dec * M.cos phi)

/-- part_000 `altitude` helper inside `getSunPosition`. -/
def altitudeOf (M : MathOps) (H phi dec : ℚ) : ℚ :=
  M.asin (M.sin phi * M.sin dec + M.cos phi * M.cos dec * M.cos H)

/-- part_000 `siderealTime`. -/
def siderealTime (d lw : ℚ) : ℚ := 4.894961 + 6.300388099 * d + lw

/-- part_000 `solarMeanAnomaly`. -/
def solarMeanAnomaly (d : ℚ) : ℚ := 6.240040768 + 0.0172019699 * d

/-- part_000 `eclipticLongitude`. -/
def eclipticLongitude (M : MathOps) (anom : ℚ) : ℚ :=
  1.796593063 + anom + 0.034906585 * M.sin anom

/-- part_000 `getSunPosition(date, lat, lng)`, returning
`(azimuth, altitude)` in radians.  The date is its millisecond timestamp. -/
def getSunPosition (M : MathOps) (dateMs lat lng : ℚ) : ℚ × ℚ :=
  let d := toDays dateMs
  let L := eclipticLongitude M (solarMeanAnomaly d)
  let dec := declination M L 0
  let ra := rightAscension M L 0
  let lw := -lng * (M.pi / 180)
  let phi := lat * (M.pi / 180)
  let H := siderealTime d lw - ra
  (azimuthOf M H phi dec, altitudeOf M H phi dec)

/-- part_000 / page.tsx `getBearing` (identical in both variants). -/
def getBearing (M : MathOps) (lat1 lon1 lat2 lon2 : ℚ) : ℚ :=
  let dLon := (lon2 - lon1) * (M.pi / 180)
  let lat1Rad := lat1 * (M.pi / 180)
  let lat2Rad := lat2 * (M.pi / 180)
  let y := M.sin dLon * M.cos lat2Rad
  let x := M.cos lat1Rad * M.sin lat2Rad - M.sin lat1Rad * M.cos lat2Rad * M.cos dLon
  let bearing := M.atan2 y x * 180 / M.pi
  jsMod (bearing + 360) 360

/-- part_000 `calculateDistance`: haversine distance, Earth radius 6371 km. -/
def calculateDistance (M : MathOps) (lat1 lon1 lat2 lon2 : ℚ) : ℚ :=
  let dLat := (lat2 - lat1) * M.pi / 180
  let dLon := (lon2 - lon1) * M.pi / 180
  let a := M.sin (dLat / 2) ^ 2 +
    M.cos (lat1 * M.pi / 180) * M.cos (lat2 * M.pi / 180) * M.sin (dLon / 2) ^ 2
  let c := 2 * M.atan2 (M.sqrt a) (M.sqrt (1 - a))
  6371 * c

/-- part_000 `timePerSegment` (default speed there is 50 km/h; the speed is an
explicit argument here). -/
def timePerSegment (M : MathOps) (lat1 lon1 lat2 lon2 speed : ℚ) : ℚ :=
  calculateDistance M lat1 lon1 lat2 lon2 / speed * 3600 * 1000

/-- page.tsx `timePerSegment` (default speed there is 15 km/h): the haversine
formula is inlined in that variant, with the same arithmetic. -/
def timePerSegmentMap (M : MathOps) (lat1 lon1 lat2 lon2 speed : ℚ) : ℚ :=
  let dLat := (lat2 - lat1) * M.pi / 180
  let dLon := (lon2 - lon1) * M.pi / 180
  let a := M.sin (dLat / 2) ^ 2 +
    M.cos (lat1 * M.pi / 180) * M.cos (lat2 * M.pi / 180) * M.sin (dLon / 2) ^ 2
  let c := 2 * M.atan2 (M.sqrt a) (M.sqrt (1 - a))
  let distance := 6371 * c
  distance / speed * 3600 * 1000

/-- part_000 / page.tsx `getSunAzimuth`: converts `getSunPosition` radians to
degrees, azimuth shifted by 180 and wrapped into [0, 360) by the JS `%`. -/
def getSunAzimuth (M : MathOps) (lat lon dateMs : ℚ) : ℚ × ℚ :=
  let sunPos := getSunPosition M dateMs lat lon
  (jsMod (sunPos.1 * 180 / M.pi + 180) 360, sunPos.2 * 180 / M.pi)

/-- Classification of one segment: sun on the left, sun on the right, or sun
below the horizon threshold. -/
inductive SunClass where
  | leftSun
  | rightSun
  | noSun
deriving DecidableEq, Repr

/-- part_000 line 395: `const HORIZON_THRESHOLD = -0.833`. -/
def HORIZON_THRESHOLD : ℚ := -0.833

/-- part_000 lines 397-400: the two sequential wrap conditionals applied to
`sun.azimuth - heading`. -/
def normalizeRelAngle (d : ℚ) : ℚ :=
  let r1 := if d > 180 then d - 360 else d
  if r1 < -180 then r1 + 360 else r1

/-- One processed segment: the loop-local values of an iteration of the
`coords.forEach` traversal (segment index, the instant the sun was sampled at,
the segment duration, heading, sun sample, the class taken, and the drawn
color). -/
structure SegmentRecord where
  fromIdx : ℕ
  dateAtSegmentMs : ℚ
  segmentTimeMs : ℚ
  heading : ℚ
  sunAzimuth : ℚ
  sunAltitude : ℚ
  cls : SunClass
  color : String
deriving DecidableEq, Repr

/-- The mutable state of the traversal: `cumulativeTime`, `leftSunTime`,
`rightSunTime`, plus the list of processed segments. -/
structure TraverseState where
  cumulativeTime : ℚ
  leftSunTime : ℚ
  rightSunTime : ℚ
  records : List SegmentRecord
deriving DecidableEq, Repr

/-- One iteration of the part_000 traversal (lines 380-428): the sun is
sampled at `startTime + cumulativeTime` BEFORE `cumulativeTime` is advanced
by this segment's duration. -/
def stepSegment000 (M : MathOps) (startTimeMs : ℚ) (s : TraverseState) (i : ℕ)
    (curr next : Coordinate) : TraverseState :=
  let segmentTime := timePerSegment M curr.lat curr.lng next.lat next.lng 50
  let dateAtSegment := startTimeMs + s.cumulativeTime
  let cumulativeTime := s.cumulativeTime + segmentTime
  let heading := getBearing M curr.lat curr.lng next.lat next.lng
  let sun := getSunAzimuth M curr.lat curr.lng dateAtSegment
  let relAngle := normalizeRelAngle (sun.1 - heading)
  if sun.2 > HORIZON_THRESHOLD then
    if relAngle > 0 then
      { cumulativeTime := cumulativeTime
        leftSunTime := s.leftSunTime
        rightSunTime := s.rightSunTime + segmentTime
        records := s.records ++
          [⟨i, dateAtSegment, segmentTime, heading, sun.1, sun.2, .rightSun, "#baffc9"⟩] }
    else
      { cumulativeTime := cumulativeTime
        leftSunTime := s.leftSunTime + segmentTime
        rightSunTime := s.rightSunTime
        records := s.records ++
          [⟨i, dateAtSegment, segmentTime, heading, sun.1, sun.2, .leftSun, "#ffb3ba"⟩] }
  else
    { cumulativeTime := cumulativeTime
      leftSunTime := s.leftSunTime
      rightSunTime := s.rightSunTime
      records := s.records ++
        [⟨i, dateAtSegment, segmentTime, heading, sun.1, sun.2, .noSun, "#4444aa"⟩] }

/-- One iteration of the page.tsx traversal (lines 224-253): `cumulativeTime`
is advanced FIRST and the sun is sampled at `startTime + cumulativeTime`
afterwards; the horizon test is `sun.altitude > 0` and the side test is
`relAngle < 180` on the [0, 360) wrap. -/
def stepSegmentMap (M : MathOps) (startTimeMs : ℚ) (s : TraverseState) (i : ℕ)
    (curr next : Coordinate) : TraverseState :=
  let segmentTime := timePerSegmentMap M curr.lat curr.lng next.lat next.lng 15
  let cumulativeTime := s.cumulativeTime + segmentTime
  let dateAtSegment := startTimeMs + cumulativeTime
  let heading := getBearing M curr.lat curr.lng next.lat next.lng
  let sun := getSunAzimuth M curr.lat curr.lng dateAtSegment
  let relAngle := jsMod (sun.1 - heading + 360) 360
  if sun.2 > 0 then
    if relAngle < 180 then
      { cumulativeTime := cumulativeTime
        leftSunTime := s.leftSunTime
        rightSunTime := s.rightSunTime + segmentTime
        records := s.records ++
          [⟨i, dateAtSegment, segmentTime, heading, sun.1, sun.2, .rightSun, "#22aa22"⟩] }
    else
      { cumulativeTime := cumulativeTime
        leftSunTime := s.leftSunTime + segmentTime
        rightSunTime := s.rightSunTime
        records := s.records ++
          [⟨i, dateAtSegment, segmentTime, heading, sun.1, sun.2, .leftSun, "#aa2222"⟩] }
  else
    { cumulativeTime := cumulativeTime
      leftSunTime := s.leftSunTime
      rightSunTime := s.rightSunTime
      records := s.records ++
        [⟨i, dateAtSegment, segmentTime, heading, sun.1, sun.2, .noSun, "#4444aa"⟩] }

/-- The part_000 `coords.forEach` loop: each consecutive pair is one segment;
the last coordinate starts no segment. -/
def traverse000 (M : MathOps) (startTimeMs : ℚ) :
    List Coordinate → ℕ → TraverseState → TraverseState
  | curr :: next :: rest, i, s =>
    traverse000 M startTimeMs (next :: rest) (i + 1) (stepSegment000 M startTimeMs s i curr next)
  | _, _, s => s

/-- The page.tsx `coords.forEach` loop. -/
def traverseMap (M : MathOps) (startTimeMs : ℚ) :
    List Coordinate → ℕ → TraverseState → TraverseState
  | curr :: next :: rest, i, s =>
    traverseMap M startTimeMs (next :: rest) (i + 1) (stepSegmentMap M startTimeMs s i curr next)
  | _, _, s => s

/-- The error surfaced by part_000 when the route has fewer than 2 points
(`setError("Route too short to analyze")`). -/
inductive RouteError where
  | invalidRoute
deriving DecidableEq, Repr

/-- The observable output of one run: the processed segments, the two
tallies, their total, and the displayed percentages. -/
structure SunRouteOutput where
  records : List SegmentRecord
  leftSunTime : ℚ
  rightSunTime : ℚ
  totalSunTime : ℚ
  leftPercent : ℤ
  rightPercent : ℤ
deriving DecidableEq, Repr

/-- Initial traversal state: `cumulativeTime = leftSunTime = rightSunTime = 0`. -/
def initState : TraverseState := ⟨0, 0, 0, []⟩

/-- The part_000 percentage computation (lines 430-432): each side is rounded
independently; both are 0 when the total is not positive. -/
def percents000 (leftSunTime rightSunTime : ℚ) : ℤ × ℤ :=
  let totalSunTime := leftSunTime + rightSunTime
  (if totalSunTime > 0 then jsRound (leftSunTime / totalSunTime * 100) else 0,
   if totalSunTime > 0 then jsRound (rightSunTime / totalSunTime * 100) else 0)

/-- The part_000 route computation (`routesfound` handler, lines 365-432):
guard on route length, one traversal pass, then the percentages. -/
def drawRouteSun000 (M : MathOps) (startTimeMs : ℚ) (coords : List Coordinate) :
    Except RouteError SunRouteOutput :=
  if coords.length < 2 then .error .invalidRoute
  else
    let s := traverse000 M startTimeMs coords 0 initState
    let totalSunTime := s.leftSunTime + s.rightSunTime
    let p := percents000 s.leftSunTime s.rightSunTime
    .ok ⟨s.records, s.leftSunTime, s.rightSunTime, totalSunTime, p.1, p.2⟩

/-- The page.tsx percentage computation (lines 255-257): the JS truthiness
test `totalTime ? _ : 0` is false exactly at 0. -/
def percentsMap (leftSunTime rightSunTime : ℚ) : ℤ × ℤ :=
  let totalTime := leftSunTime + rightSunTime
  (if totalTime = 0 then 0 else jsRound (leftSunTime / totalTime * 100),
   if totalTime = 0 then 0 else jsRound (rightSunTime / totalTime * 100))

/-- The page.tsx route computation (`routesfound` handler, lines 213-263):
no validation of any kind, one traversal pass, then the percentages. -/
def drawRouteSunMap (M : MathOps) (startTimeMs : ℚ) (coords : List Coordinate) :
    SunRouteOutput :=
  let s := traverseMap M startTimeMs coords 0 initState
  let totalTime := s.leftSunTime + s.rightSunTime
  let p := percentsMap s.leftSunTime s.rightSunTime
  ⟨s.records, s.leftSunTime, s.rightSunTime, totalTime, p.1, p.2⟩

/-- The processed segments of a part_000 run, starting from the initial state. -/
def routeRecords000 (M : MathOps) (startTimeMs : ℚ) (coords : List Coordinate) :
    List SegmentRecord :=
  (traverse000 M startTimeMs coords 0 initState).records

/-- The processed segments of a page.tsx run, starting from the initial state. -/
def routeRecordsMap (M : MathOps) (startTimeMs : ℚ) (coords : List Coordinate) :
    List SegmentRecord :=
  (traverseMap M startTimeMs coords 0 initState).records

/-!
The `JsNum` layer: JavaScript numbers including the non-finite value.
`JsNum.nonfinite` models NaN (for instance the timestamp of an `Invalid Date`,
or a coordinate produced by a failed `parseFloat`).  JavaScript arithmetic on
NaN yields NaN and every `<` / `>` comparison involving NaN is false; both
semantics are reproduced below.  Finite arithmetic is modelled exactly.
-/

/-- A JavaScript number: a finite value, or NaN. -/
inductive JsNum where
  | num (q : ℚ)
  | nonfinite
deriving DecidableEq, Repr

/-- JavaScript addition. -/
def jAdd : JsNum → JsNum → JsNum
  | .num a, .num b => .num (a + b)
  | _, _ => .nonfinite

/-- JavaScript subtraction. -/
def jSub : JsNum → JsNum → JsNum
  | .num a, .num b => .num (a - b)
  | _, _ => .nonfinite

/-- JavaScript multiplication. -/
def jMul : JsNum → JsNum → JsNum
  | .num a, .num b => .num (a * b)
  | _, _ => .nonfinite

/-- JavaScript negation. -/
def jNeg : JsNum → JsNum
  | .num a => .num (-a)
  | .nonfinite => .nonfinite

/-- JavaScript division (division by zero is non-finite). -/
def jDiv : JsNum → JsNum → JsNum
  | .num a, .num b => if b = 0 then .nonfinite else .num (a / b)
  | _, _ => .nonfinite

/-- JavaScript `x ** 2`. -/
def jSq (x : JsNum) : JsNum := jMul x x

/-- JavaScript `>`: false whenever an operand is NaN. -/
def jGt : JsNum → JsNum → Bool
  | .num a, .num b => decide (b < a)
  | _, _ => false

/-- JavaScript `<`: false whenever an operand is NaN. -/
def jLt : JsNum → JsNum → Bool
  | .num a, .num b => decide (a < b)
  | _, _ => false

/-- JavaScript `%` on possibly non-finite numbers. -/
def jsModJs : JsNum → JsNum → JsNum
  | .num a, .num b => if b = 0 then .nonfinite else .num (jsMod a b)
  | _, _ => .nonfinite

/-- JavaScript `Math.round` on possibly non-finite numbers. -/
def jsRoundJs : JsNum → JsNum
  | .num q => .num (jsRound q : ℤ)
  | .nonfinite => .nonfinite

/-- The JavaScript `Math` functions over `JsNum` (abstract parameter, as in
the exact layer). -/
structure JsMathOps where
  sin : JsNum → JsNum
  cos : JsNum → JsNum
  tan : JsNum → JsNum
  asin : JsNum → JsNum
  atan2 : JsNum → JsNum → JsNum
  sqrt : JsNum → JsNum
  pi : JsNum

/-- A route coordinate whose components may be non-finite. -/
structure JsCoordinate where
  lat : JsNum
  lng : JsNum
deriving DecidableEq, Repr

/-- part_000 `toDays` over `JsNum`. -/
def toDaysJs (dateMs : JsNum) : JsNum :=
  jSub (jAdd (jSub (jDiv dateMs (.num (1000 * 60 * 60 * 24))) (.num 0.5)) (.num 2440588))
    (.num 2451545)

/-- part_000 `rightAscension` over `JsNum`. -/
def rightAscensionJs (W : JsMathOps) (l b : JsNum) : JsNum :=
  W.atan2 (jSub (jMul (W.sin l) (W.cos (.num 0.409093)))
    (jMul (W.tan b) (W.sin (.num 0.409093)))) (W.cos l)

/-- part_000 `declination` over `JsNum`. -/
def declinationJs (W : JsMathOps) (l b : JsNum) : JsNum :=
  W.asin (jAdd (jMul (W.sin b) (W.cos (.num 0.409093)))
    (jMul (jMul (W.cos b) (W.sin (.num 0.409093))) (W.sin l)))

/-- part_000 `azimuth` helper over `JsNum`. -/
def azimuthOfJs (W : JsMathOps) (H phi dec : JsNum) : JsNum :=
  W.atan2 (W.sin H) (jSub (jMul (W.cos H) (W.sin phi)) (jMul (W.tan dec) (W.cos phi)))

/-- part_000 `altitude` helper over `JsNum`. -/
def altitudeOfJs (W : JsMathOps) (H phi dec : JsNum) : JsNum :=
  W.asin (jAdd (jMul (W.sin phi) (W.sin dec))
    (jMul (jMul (W.cos phi) (W.cos dec)) (W.cos H)))

/-- part_000 `siderealTime` over `JsNum`. -/
def siderealTimeJs (d lw : JsNum) : JsNum :=
  jAdd (jAdd (.num 4.894961) (jMul (.num 6.300388099) d)) lw

/-- part_000 `solarMeanAnomaly` over `JsNum`. -/
def solarMeanAnomalyJs (d : JsNum) : JsNum :=
  jAdd (.num 6.240040768) (jMul (.num 0.0172019699) d)

/-- part_000 `eclipticLongitude` over `JsNum`. -/
def eclipticLongitudeJs (W : JsMathOps) (anom : JsNum) : JsNum :=
  jAdd (jAdd (.num 1.796593063) anom) (jMul (.num 0.034906585) (W.sin anom))

/-- part_000 `getSunPosition` over `JsNum`. -/
def getSunPositionJs (W : JsMathOps) (dateMs lat lng : JsNum) : JsNum × JsNum :=
  let d := toDaysJs dateMs
  let L := eclipticLongitudeJs W (solarMeanAnomalyJs d)
  let dec := declinationJs W L (.num 0)
  let ra := rightAscensionJs W L (.num 0)
  let lw := jMul (jNeg lng) (jDiv W.pi (.num 180))
  let phi := jMul lat (jDiv W.pi (.num 180))
  let H := jSub (siderealTimeJs d lw) ra
  (azimuthOfJs W H phi dec, altitudeOfJs W H phi dec)

/-- part_000 `getBearing` over `JsNum`. -/
def getBearingJs (W : JsMathOps) (lat1 lon1 lat2 lon2 : JsNum) : JsNum :=
  let dLon := jMul (jSub lon2 lon1) (jDiv W.pi (.num 180))
  let lat1Rad := jMul lat1 (jDiv W.pi (.num 180))
  let lat2Rad := jMul lat2 (jDiv W.pi (.num 180))
  let y := jMul (W.sin dLon) (W.cos lat2Rad)
  let x := jSub (jMul (W.cos lat1Rad) (W.sin lat2Rad))
    (jMul (jMul (W.sin lat1Rad) (W.cos lat2Rad)) (W.cos dLon))
  let bearing := jDiv (jMul (W.atan2 y x) (.num 180)) W.pi
  jsModJs (jAdd bearing (.num 360)) (.num 360)

/-- part_000 `calculateDistance` over `JsNum`. -/
def calculateDistanceJs (W : JsMathOps) (lat1 lon1 lat2 lon2 : JsNum) : JsNum :=
  let dLat := jDiv (jMul (jSub lat2 lat1) W.pi) (.num 180)
  let dLon := jDiv (jMul (jSub lon2 lon1) W.pi) (.num 180)
  let a := jAdd (jSq (W.sin (jDiv dLat (.num 2))))
    (jMul (jMul (W.cos (jDiv (jMul lat1 W.pi) (.num 180)))
      (W.cos (jDiv (jMul lat2 W.pi) (.num 180)))) (jSq (W.sin (jDiv dLon (.num 2)))))
  let c := jMul (.num 2) (W.atan2 (W.sqrt a) (W.sqrt (jSub (.num 1) a)))
  jMul (.num 6371) c

/-- part_000 `timePerSegment` over `JsNum`. -/
def timePerSegmentJs (W : JsMathOps) (lat1 lon1 lat2 lon2 speed : JsNum) : JsNum :=
  jMul (jMul (jDiv (calculateDistanceJs W lat1 lon1 lat2 lon2) speed) (.num 3600)) (.num 1000)

/-- part_000 `getSunAzimuth` over `JsNum`. -/
def getSunAzimuthJs (W : JsMathOps) (lat lon dateMs : JsNum) : JsNum × JsNum :=
  let sunPos := getSunPositionJs W dateMs lat lon
  (jsModJs (jAdd (jDiv (jMul sunPos.1 (.num 180)) W.pi) (.num 180)) (.num 360),
   jDiv (jMul sunPos.2 (.num 180)) W.pi)

/-- part_000 lines 397-400 over `JsNum` (both comparisons are false on NaN, so
NaN passes through unchanged). -/
def normalizeRelAngleJs (d : JsNum) : JsNum :=
  let r1 := if jGt d (.num 180) then jSub d (.num 360) else d
  if jLt r1 (.num (-180)) then jAdd r1 (.num 360) else r1

/-- A processed segment of the `JsNum` traversal. -/
structure JsSegmentRecord where
  fromIdx : ℕ
  dateAtSegmentMs : JsNum
  segmentTimeMs : JsNum
  heading : JsNum
  sunAzimuth : JsNum
  sunAltitude : JsNum
  cls : SunClass
  color : String
deriving DecidableEq, Repr

/-- Traversal state over `JsNum`. -/
structure JsTraverseState where
  cumulativeTime : JsNum
  leftSunTime : JsNum
  rightSunTime : JsNum
  records : List JsSegmentRecord
deriving DecidableEq, Repr

/-- One iteration of the part_000 traversal over `JsNum`: note that a NaN
altitude fails the `>` test, so such a segment contributes to neither tally. -/
def stepSegmentJs (W : JsMathOps) (startTimeMs : JsNum) (s : JsTraverseState) (i : ℕ)
    (curr next : JsCoordinate) : JsTraverseState :=
  let segmentTime := timePerSegmentJs W curr.lat curr.lng next.lat next.lng (.num 50)
  let dateAtSegment := jAdd startTimeMs s.cumulativeTime
  let cumulativeTime := jAdd s.cumulativeTime segmentTime
  let heading := getBearingJs W curr.lat curr.lng next.lat next.lng
  let sun := getSunAzimuthJs W curr.lat curr.lng dateAtSegment
  let relAngle := normalizeRelAngleJs (jSub sun.1 heading)
  if jGt sun.2 (.num HORIZON_THRESHOLD) then
    if jGt relAngle (.num 0) then
      { cumulativeTime := cumulativeTime
        leftSunTime := s.leftSunTime
        rightSunTime := jAdd s.rightSunTime segmentTime
        records := s.records ++
          [⟨i, dateAtSegment, segmentTime, heading, sun.1, sun.2, .rightSun, "#baffc9"⟩] }
    else
      { cumulativeTime := cumulativeTime
        leftSunTime := jAdd s.leftSunTime segmentTime
        rightSunTime := s.rightSunTime
        records := s.records ++
          [⟨i, dateAtSegment, segmentTime, heading, sun.1, sun.2, .leftSun, "#ffb3ba"⟩] }
  else
    { cumulativeTime := cumulativeTime
      leftSunTime := s.leftSunTime
      rightSunTime := s.rightSunTime
      records := s.records ++
        [⟨i, dateAtSegment, segmentTime, heading, sun.1, sun.2, .noSun, "#4444aa"⟩] }

/-- The part_000 `coords.forEach` loop over `JsNum`. -/
def traverseJs (W : JsMathOps) (startTimeMs : JsNum) :
    List JsCoordinate → ℕ → JsTraverseState → JsTraverseState
  | curr :: next :: rest, i, s =>
    traverseJs W startTimeMs (next :: rest) (i + 1) (stepSegmentJs W startTimeMs s i curr next)
  | _, _, s => s

/-- Output of a `JsNum` run. -/
structure JsSunRouteOutput where
  records : List JsSegmentRecord
  leftSunTime : JsNum
  rightSunTime : JsNum
  totalSunTime : JsNum
  leftPercent : JsNum
  rightPercent : JsNum
deriving DecidableEq, Repr

/-- part_000 percentages over `JsNum`. -/
def percentsJs (leftSunTime rightSunTime : JsNum) : JsNum × JsNum :=
  let totalSunTime := jAdd leftSunTime rightSunTime
  (if jGt totalSunTime (.num 0) then jsRoundJs (jMul (jDiv leftSunTime totalSunTime) (.num 100))
    else .num 0,
   if jGt totalSunTime (.num 0) then jsRoundJs (jMul (jDiv rightSunTime totalSunTime) (.num 100))
    else .num 0)

/-- The part_000 route computation over `JsNum`: the ONLY validation is the
route-length guard; neither the start time nor any route coordinate is checked
for being a valid finite number. -/
def drawRouteSunJs (W : JsMathOps) (startTimeMs : JsNum) (coords : List JsCoordinate) :
    Except RouteError JsSunRouteOutput :=
  if coords.length < 2 then .error .invalidRoute
  else
    let s := traverseJs W startTimeMs coords 0 ⟨.num 0, .num 0, .num 0, []⟩
    let totalSunTime := jAdd s.leftSunTime s.rightSunTime
    let p := percentsJs s.leftSunTime s.rightSunTime
    .ok ⟨s.records, s.leftSunTime, s.rightSunTime, totalSunTime, p.1, p.2⟩

/-!
Concrete instantiations used by witnesses and counterexamples.
-/

/-- A concrete instantiation of the `Math` parameter, used to evaluate the
embedding at explicit inputs (any instantiation refutes a claim that is
stated for every instantiation). -/
def demoOps : MathOps where
  sin := fun x => x
  cos := fun _ => 1
  tan := fun _ => 0
  asin := fun x => x
  atan2 := fun y _ => y
  sqrt := fun x => x
  pi := 360

/-- A concrete instantiation of the `JsNum` `Math` parameter; every field maps
NaN to NaN, as the real `Math.sin`, `Math.cos`, `Math.asin`, `Math.tan` and
one-NaN-argument `Math.atan2` do. -/
def jsDemoOps : JsMathOps where
  sin := fun x => x
  cos := fun x => x
  tan := fun x => x
  asin := fun x => x
  atan2 := fun y _ => y
  sqrt := fun x => x
  pi := .num 360

/-- A two-point demonstration route. -/
def demoRoute : List Coordinate := [⟨0, 0⟩, ⟨0, 1 / 100⟩]

/-- The 9-point equator route used for the percentage counterexample:
points at longitude i/100 for i = 0..8. -/
def c3Route : List Coordinate := (List.range 9).map (fun i => ⟨0, i * (1 / 100)⟩)

/-- A start time (milliseconds) at which, under `demoOps`, the route `c3Route`
has exactly one left-sun segment and seven right-sun segments of equal
duration, so the sun-time split is exactly 12.5% / 87.5%. -/
def c3StartTime : ℚ := 19931012709382741439742093865224 / 20941952223585060695

/-- The two-point route with a non-finite (NaN) longitude used against C2. -/
def c2Coords : List JsCoordinate := [⟨.num 1, .nonfinite⟩, ⟨.num 2, .num 3⟩]

/-- A two-point route with finite coordinates, used for the C7 statements. -/
def c7Coords : List JsCoordinate := [⟨.num 0, .num 0⟩, ⟨.num 0, .num (1 / 100)⟩]

/-- Default segment record, used as the `List.getD` fallback. -/
def defaultRecord : SegmentRecord := ⟨0, 0, 0, 0, 0, 0, .noSun, ""⟩

/-- `Math` instantiation whose `asin` returns -1 rad: with pi instantiated to
360, every reported altitude is -0.5 degrees, strictly between the two
variants' thresholds. -/
def c4Ops : MathOps where
  sin := fun x => x
  cos := fun _ => 1
  tan := fun _ => 0
  asin := fun _ => -1
  atan2 := fun y _ => y
  sqrt := fun x => x
  pi := 360

/-- Sum of the durations of the records of a given class. -/
def sumTimes (rs : List SegmentRecord) (c : SunClass) : ℚ :=
  ((rs.filter (fun r => r.cls == c)).map (fun r => r.segmentTimeMs)).sum

/-!
Helper lemmas (shared by several of the claim theorems below).
-/

theorem ratFloor_eq_floor (q : ℚ) : ratFloor q = ⌊q⌋ := by
  rw [Rat.floor_def, ratFloor, Int.fdiv_eq_ediv _ (by positivity)]

theorem jsTrunc_of_nonneg (q : ℚ) (h : 0 ≤ q) : jsTrunc q = ⌊q⌋ := by
  rw [jsTrunc, if_neg (not_lt.mpr h), ratFloor_eq_floor]

theorem jsRound_eq_floor (q : ℚ) : jsRound q = ⌊q + 1 / 2⌋ := by
  rw [jsRound, ratFloor_eq_floor]

theorem jsMod_eq_self (a b : ℚ) (hb : 0 < b) (h0 : 0 ≤ a) (h1 : a < b) :
    jsMod a b = a := by
  have hq : 0 ≤ a / b := div_nonneg h0 hb.le
  have hfl : ⌊a / b⌋ = 0 := by
    rw [Int.floor_eq_zero_iff]
    constructor
    · exact hq
    · rwa [div_lt_one hb]
  rw [jsMod, jsTrunc_of_nonneg _ hq, hfl]
  push_cast
  ring

theorem jsMod_eq_sub (a b : ℚ) (hb : 0 < b) (h0 : b ≤ a) (h1 : a < b + b) :
    jsMod a b = a - b := by
  have hq : 0 ≤ a / b := div_nonneg (hb.le.trans h0) hb.le
  have hfl : ⌊a / b⌋ = 1 := by
    rw [Int.floor_eq_iff]
    constructor
    · push_cast
      rw [le_div_iff₀ hb]
      linarith
    · push_cast
      rw [div_lt_iff₀ hb]
      linarith
  rw [jsMod, jsTrunc_of_nonneg _ hq, hfl]
  push_cast
  ring

/-- Characterization of one part_000 traversal step: one record is appended,
carrying the instant sampled BEFORE the clock advance, and exactly one of the
three buckets receives the segment's duration. -/
theorem stepSegment000_spec (M : MathOps) (t : ℚ) (s : TraverseState) (i : ℕ)
    (c1 c2 : Coordinate) :
    ∃ r : SegmentRecord,
      (stepSegment000 M t s i c1 c2).records = s.records ++ [r] ∧
      r.fromIdx = i ∧
      r.dateAtSegmentMs = t + s.cumulativeTime ∧
      r.segmentTimeMs = timePerSegment M c1.lat c1.lng c2.lat c2.lng 50 ∧
      r.sunAltitude = (getSunAzimuth M c1.lat c1.lng (t + s.cumulativeTime)).2 ∧
      ((r.cls = SunClass.noSun) ↔ r.sunAltitude ≤ HORIZON_THRESHOLD) ∧
      (stepSegment000 M t s i c1 c2).cumulativeTime = s.cumulativeTime + r.segmentTimeMs ∧
      (stepSegment000 M t s i c1 c2).leftSunTime
        = s.leftSunTime + (if r.cls = SunClass.leftSun then r.segmentTimeMs else 0) ∧
      (stepSegment000 M t s i c1 c2).rightSunTime
        = s.rightSunTime + (if r.cls = SunClass.rightSun then r.segmentTimeMs else 0) := by
  simp only [stepSegment000]
  split_ifs with h1 h2
  · exact ⟨_, rfl, rfl, rfl, rfl, rfl, by simp [not_le.mpr h1], rfl, by simp, by simp⟩
  · exact ⟨_, rfl, rfl, rfl, rfl, rfl, by simp [not_le.mpr h1], rfl, by simp, by simp⟩
  · exact ⟨_, rfl, rfl, rfl, rfl, rfl, by simp [not_lt.mp h1], rfl, by simp, by simp⟩

/-- Characterization of one page.tsx traversal step: the clock advances FIRST,
and the appended record carries the instant sampled after that advance; the
horizon test is against 0. -/
theorem stepSegmentMap_spec (M : MathOps) (t : ℚ) (s : TraverseState) (i : ℕ)
    (c1 c2 : Coordinate) :
    ∃ r : SegmentRecord,
      (stepSegmentMap M t s i c1 c2).records = s.records ++ [r] ∧
      r.fromIdx = i ∧
      r.dateAtSegmentMs = t + (s.cumulativeTime + r.segmentTimeMs) ∧
      r.segmentTimeMs = timePerSegmentMap M c1.lat c1.lng c2.lat c2.lng 15 ∧
      r.sunAltitude
        = (getSunAzimuth M c1.lat c1.lng
            (t + (s.cumulativeTime + r.segmentTimeMs))).2 ∧
      ((r.cls = SunClass.noSun) ↔ r.sunAltitude ≤ 0) ∧
      (stepSegmentMap M t s i c1 c2).cumulativeTime = s.cumulativeTime + r.segmentTimeMs ∧
      (stepSegmentMap M t s i c1 c2).leftSunTime
        = s.leftSunTime + (if r.cls = SunClass.leftSun then r.segmentTimeMs else 0) ∧
      (stepSegmentMap M t s i c1 c2).rightSunTime
        = s.rightSunTime + (if r.cls = SunClass.rightSun then r.segmentTimeMs else 0) := by
  simp only [stepSegmentMap]
  split_ifs with h1 h2
  · exact ⟨_, rfl, rfl, rfl, rfl, rfl, by simp [not_le.mpr h1], rfl, by simp, by simp⟩
  · exact ⟨_, rfl, rfl, rfl, rfl, rfl, by simp [not_le.mpr h1], rfl, by simp, by simp⟩
  · exact ⟨_, rfl, rfl, rfl, rfl, rfl, by simp [not_lt.mp h1], rfl, by simp, by simp⟩

/-- Any property preserved by the part_000 step holds after the whole
traversal. -/
theorem traverse000_inv (M : MathOps) (t : ℚ) (Inv : TraverseState → Prop)
    (hstep : ∀ s i c1 c2, Inv s → Inv (stepSegment000 M t s i c1 c2))
    (cs : List Coordinate) (i : ℕ) (s : TraverseState) (h : Inv s) :
    Inv (traverse000 M t cs i s) := by
  induction cs generalizing i s with
  | nil => simpa [traverse000] using h
  | cons c rest ih =>
    cases rest with
    | nil => simpa [traverse000] using h
    | cons c2 r2 =>
      rw [traverse000]
      exact ih (i + 1) _ (hstep s i c c2 h)

/-- Any property preserved by the page.tsx step holds after the whole
traversal. -/
theorem traverseMap_inv (M : MathOps) (t : ℚ) (Inv : TraverseState → Prop)
    (hstep : ∀ s i c1 c2, Inv s → Inv (stepSegmentMap M t s i c1 c2))
    (cs : List Coordinate) (i : ℕ) (s : TraverseState) (h : Inv s) :
    Inv (traverseMap M t cs i s) := by
  induction cs generalizing i s with
  | nil => simpa [traverseMap] using h
  | cons c rest ih =>
    cases rest with
    | nil => simpa [traverseMap] using h
    | cons c2 r2 =>
      rw [traverseMap]
      exact ih (i + 1) _ (hstep s i c c2 h)

/-- Let-free restatement of `normalizeRelAngle`, for case analysis. -/
theorem normalizeRelAngle_eq (d : ℚ) :
    normalizeRelAngle d =
      if d > 180 then (if d - 360 < -180 then d - 360 + 360 else d - 360)
      else (if d < -180 then d + 360 else d) := by
  show (if (if d > 180 then d - 360 else d) < -180
        then (if d > 180 then d - 360 else d) + 360
        else (if d > 180 then d - 360 else d)) = _
  by_cases h : d > 180 <;> simp [h]

/-!
Claim C8.
-/

/-- C8 (corrected): for azimuth and heading in [0, 360), the two sequential
wrap conditionals of part_000 map `sunAzimuth - heading` into the CLOSED
interval [-180, 180]; the left endpoint -180 is attained (see the
counterexample), so the claimed half-open range (-180, 180] is off by that
boundary point. -/
theorem c8_normalize_range (az hd : ℚ) (h1 : 0 ≤ az) (h2 : az < 360)
    (h3 : 0 ≤ hd) (h4 : hd < 360) :
    -180 ≤ normalizeRelAngle (az - hd) ∧ normalizeRelAngle (az - hd) ≤ 180 := by
  rw [normalizeRelAngle_eq]
  split_ifs with ha hb <;> constructor <;> linarith

/-- Witness for `c8_normalize_range` at azimuth 10, heading 20. -/
theorem c8_normalize_range_witness :
    -180 ≤ normalizeRelAngle ((10 : ℚ) - 20) ∧ normalizeRelAngle ((10 : ℚ) - 20) ≤ 180 :=
  c8_normalize_range 10 20 (by norm_num) (by norm_num) (by norm_num) (by norm_num)

/-- C8 counterexample: at azimuth 0 and heading 180 (both in [0, 360)), the
wrap leaves -180 unchanged, which is NOT strictly inside (-180, 180]. -/
theorem c8_counterexample :
    (0 : ℚ) ≤ 0 ∧ (0 : ℚ) < 360 ∧ (0 : ℚ) ≤ 180 ∧ (180 : ℚ) < 360 ∧
    normalizeRelAngle ((0 : ℚ) - 180) = -180 ∧
    ¬(-180 < normalizeRelAngle ((0 : ℚ) - 180)) := by
  have h : normalizeRelAngle ((0 : ℚ) - 180) = -180 := by with_unfolding_all rfl
  exact ⟨le_refl _, by norm_num, by norm_num, by norm_num, h, by rw [h]; norm_num⟩

/-!
Claim C5.
-/

/-- C5 (corrected): away from the two boundary relative angles 0 and 180, the
part_000 convention (wrap into [-180, 180] via `normalizeRelAngle`, right-sun
iff the result is > 0) and the page.tsx convention (wrap into [0, 360) via
`(d + 360) % 360`, right-sun iff the result is < 180) assign the same side.
At a relative angle of exactly 0 or exactly 180 the conventions disagree (see
the counterexample), so the equivalence claimed for ALL angles fails. -/
theorem c5_conventions_agree (az hd : ℚ) (h1 : 0 ≤ az) (h2 : az < 360)
    (h3 : 0 ≤ hd) (h4 : hd < 360) (h5 : az - hd ≠ 0) (h6 : az - hd ≠ 180) :
    (normalizeRelAngle (az - hd) > 0 ↔ jsMod (az - hd + 360) 360 < 180) := by
  set d := az - hd with hdd
  rcases lt_or_le d 0 with hneg | hpos
  · rw [jsMod_eq_self (d + 360) 360 (by norm_num) (by linarith) (by linarith)]
    rw [normalizeRelAngle_eq]
    split_ifs with ha hb <;> constructor <;> intro h <;> linarith
  · have hpos' : 0 < d := lt_of_le_of_ne hpos (Ne.symm h5)
    rw [jsMod_eq_sub (d + 360) 360 (by norm_num) (by linarith) (by linarith),
      show d + 360 - 360 = d by ring]
    rcases lt_trichotomy d 180 with hl | he | hg
    · rw [normalizeRelAngle_eq]
      split_ifs with ha hb <;> constructor <;> intro h <;> linarith
    · exact absurd he h6
    · rw [normalizeRelAngle_eq]
      split_ifs with ha hb <;> constructor <;> intro h <;> linarith

/-- Witness for `c5_conventions_agree` at azimuth 90, heading 30. -/
theorem c5_conventions_agree_witness :
    (normalizeRelAngle ((90 : ℚ) - 30) > 0 ↔ jsMod ((90 : ℚ) - 30 + 360) 360 < 180) :=
  c5_conventions_agree 90 30 (by norm_num) (by norm_num) (by norm_num) (by norm_num)
    (by norm_num) (by norm_num)

/-- C5 counterexample: at azimuth = heading = 0 (relative angle 0), the
part_000 convention classifies left-sun (0 is not > 0) while the page.tsx
convention classifies right-sun (0 is < 180): the two conventions do NOT
always assign the same class. -/
theorem c5_counterexample :
    (0 : ℚ) ≤ 0 ∧ (0 : ℚ) < 360 ∧
    ¬(normalizeRelAngle ((0 : ℚ) - 0) > 0 ↔ jsMod ((0 : ℚ) - 0 + 360) 360 < 180) := by
  have h1 : normalizeRelAngle ((0 : ℚ) - 0) = 0 := by with_unfolding_all rfl
  have h2 : jsMod ((0 : ℚ) - 0 + 360) 360 = 0 := by with_unfolding_all rfl
  refine ⟨le_refl _, by norm_num, ?_⟩
  rw [h1, h2]
  norm_num

/-!
Claim C9.
-/

/-- C9 (confirmed): the segmenter is a pure function of its inputs — two
invocations of the part_000 route computation on identical route coordinates,
start time and `Math` implementation produce identical outputs (segment
records, tallies and percentages). -/
theorem c9_deterministic (M M' : MathOps) (t t' : ℚ) (coords coords' : List Coordinate)
    (hM : M = M') (ht : t = t') (hc : coords = coords') :
    drawRouteSun000 M t coords = drawRouteSun000 M' t' coords' := by
  subst hM
  subst ht
  subst hc
  rfl

/-- Witness for `c9_deterministic` at a concrete input. -/
theorem c9_deterministic_witness :
    drawRouteSun000 demoOps 0 demoRoute = drawRouteSun000 demoOps 0 demoRoute :=
  c9_deterministic demoOps demoOps 0 0 demoRoute demoRoute rfl rfl rfl

/-!
Claim C2.
-/

/-- C2 (corrected): the part_000 segmenter fails — immediately, producing no
records, tallies or percentages — exactly when the route has fewer than 2
points.  Finiteness of the route coordinates is NOT part of the condition:
the guard inspects only the length, for every start time and every
coordinate list, including lists containing non-finite coordinates. -/
theorem c2_error_iff_short_route (W : JsMathOps) (t : JsNum) (coords : List JsCoordinate) :
    drawRouteSunJs W t coords = .error .invalidRoute ↔ coords.length < 2 := by
  unfold drawRouteSunJs
  split_ifs with h
  · simp [h]
  · simp [h]

/-- C2 counterexample: a route with 2 points, one of whose coordinates is
non-finite, does NOT make the segmenter fail — it returns a normal output
(whose tallies are 0, the NaN altitude comparing false against the horizon
threshold), contradicting the claimed "if and only if". -/
theorem c2_counterexample :
    c2Coords.length = 2 ∧
    (c2Coords.map fun c => c.lng) = [JsNum.nonfinite, JsNum.num 3] ∧
    (drawRouteSunJs jsDemoOps (.num 0) c2Coords).map
      (fun o => (o.leftSunTime, o.rightSunTime)) = .ok (.num 0, .num 0) := by
  refine ⟨rfl, rfl, ?_⟩
  with_unfolding_all rfl

/-!
Claim C7.
-/

/-- C7 (corrected): there is no start-time validation at all in the code — for
EVERY start time, including the non-finite timestamp of an `Invalid Date`,
the part_000 segmenter returns a normal output whenever the route has at
least 2 points; no `InvalidTimeError` (nor any other error) is surfaced. -/
theorem c7_no_time_validation (W : JsMathOps) (t : JsNum) (coords : List JsCoordinate)
    (h : 2 ≤ coords.length) :
    ∃ out, drawRouteSunJs W t coords = .ok out := by
  unfold drawRouteSunJs
  rw [if_neg (by omega)]
  exact ⟨_, rfl⟩

/-- Witness for `c7_no_time_validation`: applied at a NaN start time. -/
theorem c7_no_time_validation_witness :
    ∃ out, drawRouteSunJs jsDemoOps JsNum.nonfinite c7Coords = .ok out :=
  c7_no_time_validation jsDemoOps JsNum.nonfinite c7Coords (by norm_num [c7Coords])

/-- C7 counterexample: with an unparseable start instant (NaN timestamp) and a
valid 2-point route, the segmenter does NOT fail: it succeeds with the
degenerate all-darkness output (every segment's NaN sun altitude fails the
horizon test, so both tallies and both percentages are 0). -/
theorem c7_counterexample :
    (drawRouteSunJs jsDemoOps JsNum.nonfinite c7Coords).map
      (fun o => (o.leftSunTime, o.rightSunTime, o.leftPercent, o.rightPercent)) =
    .ok (.num 0, .num 0, .num 0, .num 0) := by
  with_unfolding_all rfl

/-!
Claim C1.
-/

/-- The instant stored in each part_000 record is the start time plus the sum
of the durations of the PRECEDING segments (the clock is sampled before it is
advanced). -/
theorem records000_instants (M : MathOps) (t : ℚ) (coords : List Coordinate) :
    ∀ j, j < (routeRecords000 M t coords).length →
      ((routeRecords000 M t coords).getD j defaultRecord).dateAtSegmentMs
        = t + (((routeRecords000 M t coords).take j).map (fun r => r.segmentTimeMs)).sum := by
  have main := traverse000_inv M t
    (fun s => s.cumulativeTime = (s.records.map (fun r => r.segmentTimeMs)).sum ∧
      ∀ j, j < s.records.length →
        (s.records.getD j defaultRecord).dateAtSegmentMs
          = t + ((s.records.take j).map (fun r => r.segmentTimeMs)).sum)
    ?_ coords 0 initState ⟨by simp [initState], by intro j hj; simp [initState] at hj⟩
  · exact main.2
  · intro s i c1 c2 hs
    obtain ⟨hc, hd⟩ := hs
    obtain ⟨r, hrec, _, hdate, _, _, _, hcum, _, _⟩ := stepSegment000_spec M t s i c1 c2
    constructor
    · rw [hcum, hrec, List.map_append, List.sum_append, hc]
      simp
    · intro j hj
      rw [hrec] at hj ⊢
      rw [List.length_append] at hj
      simp only [List.length_singleton] at hj
      rcases Nat.lt_or_ge j s.records.length with hlt | hge
      · rw [List.getD_eq_getElem _ _ (by simp only [List.length_append, List.length_singleton]; omega), List.getElem_append_left hlt]
        have htake : (s.records ++ [r]).take j = s.records.take j := by
          rw [List.take_append_eq_append_take, Nat.sub_eq_zero_of_le hlt.le,
            List.take_zero, List.append_nil]
        rw [htake, ← List.getD_eq_getElem _ defaultRecord hlt]
        exact hd j hlt
      · have hj' : j = s.records.length := by omega
        subst hj'
        rw [List.getD_eq_getElem _ _ (by simp only [List.length_append, List.length_singleton]; omega), List.getElem_append_right (le_refl _)]
        simp only [Nat.sub_self, List.getElem_cons_zero]
        have htake : (s.records ++ [r]).take s.records.length = s.records := by
          rw [List.take_append_eq_append_take, Nat.sub_self, List.take_zero,
            List.append_nil, List.take_length]
        rw [htake]
        simpa [hc] using hdate

/-- The instant stored in each page.tsx record is the start time plus the sum
of the durations of the segments UP TO AND INCLUDING the current one (the
clock is advanced before it is sampled). -/
theorem recordsMap_instants (M : MathOps) (t : ℚ) (coords : List Coordinate) :
    ∀ j, j < (routeRecordsMap M t coords).length →
      ((routeRecordsMap M t coords).getD j defaultRecord).dateAtSegmentMs
        = t + (((routeRecordsMap M t coords).take (j + 1)).map
            (fun r => r.segmentTimeMs)).sum := by
  have main := traverseMap_inv M t
    (fun s => s.cumulativeTime = (s.records.map (fun r => r.segmentTimeMs)).sum ∧
      ∀ j, j < s.records.length →
        (s.records.getD j defaultRecord).dateAtSegmentMs
          = t + ((s.records.take (j + 1)).map (fun r => r.segmentTimeMs)).sum)
    ?_ coords 0 initState ⟨by simp [initState], by intro j hj; simp [initState] at hj⟩
  · exact main.2
  · intro s i c1 c2 hs
    obtain ⟨hc, hd⟩ := hs
    obtain ⟨r, hrec, _, hdate, _, _, _, hcum, _, _⟩ := stepSegmentMap_spec M t s i c1 c2
    constructor
    · rw [hcum, hrec, List.map_append, List.sum_append, hc]
      simp
    · intro j hj
      rw [hrec] at hj ⊢
      rw [List.length_append] at hj
      simp only [List.length_singleton] at hj
      rcases Nat.lt_or_ge j s.records.length with hlt | hge
      · rw [List.getD_eq_getElem _ _ (by simp only [List.length_append, List.length_singleton]; omega), List.getElem_append_left hlt]
        have htake : (s.records ++ [r]).take (j + 1) = s.records.take (j + 1) := by
          rw [List.take_append_eq_append_take, Nat.sub_eq_zero_of_le (by omega),
            List.take_zero, List.append_nil]
        rw [htake, ← List.getD_eq_getElem _ defaultRecord hlt]
        exact hd j hlt
      · have hj' : j = s.records.length := by omega
        subst hj'
        rw [List.getD_eq_getElem _ _ (by simp only [List.length_append, List.length_singleton]; omega), List.getElem_append_right (le_refl _)]
        simp only [Nat.sub_self, List.getElem_cons_zero]
        have hlen : (s.records ++ [r]).length = s.records.length + 1 := by simp
        have htake : (s.records ++ [r]).take (s.records.length + 1)
            = s.records ++ [r] := by
          rw [← hlen, List.take_length]
        rw [htake, List.map_append, List.sum_append, hdate, hc]
        simp

/-- C1 (corrected): in the part_000 variant the claim holds — segment j's sun
sample is taken at startTime plus the cumulative duration of segments 0..j-1
(the clock is read BEFORE being advanced).  In the page.tsx variant the order
is reversed: segment j's sun sample is taken at startTime plus the cumulative
duration of segments 0..j, i.e. at the segment's END time, contradicting the
claim as stated for that variant (see the counterexample). -/
theorem c1_sample_instants (M : MathOps) (t : ℚ) (coords : List Coordinate) :
    (∀ j, j < (routeRecords000 M t coords).length →
      ((routeRecords000 M t coords).getD j defaultRecord).dateAtSegmentMs
        = t + (((routeRecords000 M t coords).take j).map (fun r => r.segmentTimeMs)).sum) ∧
    (∀ j, j < (routeRecordsMap M t coords).length →
      ((routeRecordsMap M t coords).getD j defaultRecord).dateAtSegmentMs
        = t + (((routeRecordsMap M t coords).take (j + 1)).map
            (fun r => r.segmentTimeMs)).sum) :=
  ⟨records000_instants M t coords, recordsMap_instants M t coords⟩

/-- Length of the part_000 demo run (single segment). -/
theorem routeRecords000_demo_length : (routeRecords000 demoOps 5 demoRoute).length = 1 := by
  with_unfolding_all rfl

/-- Witness for `c1_sample_instants`: the part_000 half at segment 0 of the
demo route. -/
theorem c1_sample_instants_witness :
    ((routeRecords000 demoOps 5 demoRoute).getD 0 defaultRecord).dateAtSegmentMs
      = 5 + (((routeRecords000 demoOps 5 demoRoute).take 0).map
          (fun r => r.segmentTimeMs)).sum :=
  (c1_sample_instants demoOps 5 demoRoute).1 0
    (by rw [routeRecords000_demo_length]; norm_num)

/-- C1 counterexample: running the page.tsx variant on a concrete 2-point
route with start time 0, the only segment's sun sample is taken at 305808 ms
(the segment's own duration, i.e. its END), not at the claimed instant
startTime + (sum of durations of segments before it) = 0. -/
theorem c1_counterexample :
    ((routeRecordsMap demoOps 0 demoRoute).map (fun r => r.dateAtSegmentMs) = [305808]) ∧
    (305808 : ℚ) ≠ 0 + (((routeRecordsMap demoOps 0 demoRoute).take 0).map
      (fun r => r.segmentTimeMs)).sum := by
  constructor
  · with_unfolding_all rfl
  · rw [List.take_zero]
    simp

/-!
Claim C4.
-/

/-- Every part_000 record is no-sun exactly when its altitude is at most the
-0.833 threshold. -/
theorem records000_noSun_iff (M : MathOps) (t : ℚ) (coords : List Coordinate) :
    ∀ r ∈ routeRecords000 M t coords,
      (r.cls = SunClass.noSun ↔ r.sunAltitude ≤ HORIZON_THRESHOLD) := by
  refine traverse000_inv M t
    (fun s => ∀ r ∈ s.records, (r.cls = SunClass.noSun ↔ r.sunAltitude ≤ HORIZON_THRESHOLD))
    ?_ coords 0 initState (by intro r hr; simp [initState] at hr)
  intro s i c1 c2 hs r hr
  obtain ⟨r', hrec, _, _, _, _, hiff, _, _, _⟩ := stepSegment000_spec M t s i c1 c2
  rw [hrec] at hr
  rcases List.mem_append.mp hr with h | h
  · exact hs r h
  · rw [List.mem_singleton.mp h]
    exact hiff

/-- Every page.tsx record is no-sun exactly when its altitude is at most 0. -/
theorem recordsMap_noSun_iff (M : MathOps) (t : ℚ) (coords : List Coordinate) :
    ∀ r ∈ routeRecordsMap M t coords, (r.cls = SunClass.noSun ↔ r.sunAltitude ≤ 0) := by
  refine traverseMap_inv M t
    (fun s => ∀ r ∈ s.records, (r.cls = SunClass.noSun ↔ r.sunAltitude ≤ 0))
    ?_ coords 0 initState (by intro r hr; simp [initState] at hr)
  intro s i c1 c2 hs r hr
  obtain ⟨r', hrec, _, _, _, _, hiff, _, _, _⟩ := stepSegmentMap_spec M t s i c1 c2
  rw [hrec] at hr
  rcases List.mem_append.mp hr with h | h
  · exact hs r h
  · rw [List.mem_singleton.mp h]
    exact hiff

/-- C4 (corrected): in the part_000 variant the claim holds — a segment is
classified no-sun exactly when the sun's altitude at the evaluation instant is
at most HORIZON_THRESHOLD = -0.833.  The page.tsx variant instead compares
against 0, so there a segment with altitude in (-0.833, 0] is classified
no-sun although the claim says it must not be (see the counterexample). -/
theorem c4_noSun_iff (M : MathOps) (t : ℚ) (coords : List Coordinate) :
    (∀ r ∈ routeRecords000 M t coords,
      (r.cls = SunClass.noSun ↔ r.sunAltitude ≤ HORIZON_THRESHOLD)) ∧
    (∀ r ∈ routeRecordsMap M t coords, (r.cls = SunClass.noSun ↔ r.sunAltitude ≤ 0)) :=
  ⟨records000_noSun_iff M t coords, recordsMap_noSun_iff M t coords⟩

/-- Length of the part_000 demo run at start time 0. -/
theorem routeRecords000_demo0_length : (routeRecords000 demoOps 0 demoRoute).length = 1 := by
  with_unfolding_all rfl

/-- Witness for `c4_noSun_iff`: the part_000 half at the demo route's record. -/
theorem c4_noSun_iff_witness :
    (((routeRecords000 demoOps 0 demoRoute).getD 0 defaultRecord).cls = SunClass.noSun ↔
      ((routeRecords000 demoOps 0 demoRoute).getD 0 defaultRecord).sunAltitude
        ≤ HORIZON_THRESHOLD) :=
  (c4_noSun_iff demoOps 0 demoRoute).1 _ (by
    rw [List.getD_eq_getElem _ _ (by rw [routeRecords000_demo0_length]; norm_num)]
    exact List.getElem_mem _)

/-- C4 counterexample: a page.tsx run whose only segment has sun altitude
-0.5 and is classified no-sun, although -0.5 is NOT at most the claimed
threshold -0.833. -/
theorem c4_counterexample :
    ((routeRecordsMap c4Ops 0 demoRoute).map (fun r => (r.cls, r.sunAltitude))
      = [(SunClass.noSun, -1 / 2)]) ∧ ¬((-1 / 2 : ℚ) ≤ HORIZON_THRESHOLD) := by
  constructor
  · with_unfolding_all rfl
  · norm_num [HORIZON_THRESHOLD]

/-!
Claim C6.
-/

theorem sumTimes_append_singleton (rs : List SegmentRecord) (r : SegmentRecord)
    (c : SunClass) :
    sumTimes (rs ++ [r]) c = sumTimes rs c + (if r.cls = c then r.segmentTimeMs else 0) := by
  unfold sumTimes
  rw [List.filter_append, List.map_append, List.sum_append]
  by_cases h : r.cls = c
  · simp [List.filter_cons, h]
  · simp [List.filter_cons, h]

theorem sumTimes_partition (rs : List SegmentRecord) :
    sumTimes rs SunClass.leftSun + sumTimes rs SunClass.rightSun + sumTimes rs SunClass.noSun
      = (rs.map (fun r => r.segmentTimeMs)).sum := by
  induction rs with
  | nil => simp [sumTimes]
  | cons r rest ih =>
    simp only [sumTimes, List.filter_cons, List.map_cons, List.sum_cons] at *
    cases hcl : r.cls <;> simp [hcl] <;> linarith

theorem sumTimes_nonneg (rs : List SegmentRecord) (c : SunClass)
    (h : ∀ r ∈ rs, 0 ≤ r.segmentTimeMs) : 0 ≤ sumTimes rs c := by
  unfold sumTimes
  apply List.sum_nonneg
  intro x hx
  obtain ⟨r, hr, rfl⟩ := List.mem_map.mp hx
  exact h r (List.mem_of_mem_filter hr)

/-- After the part_000 traversal the tallies are the per-class duration sums
and the clock is the total duration sum. -/
theorem traverse000_tallies (M : MathOps) (t : ℚ) (coords : List Coordinate) :
    (traverse000 M t coords 0 initState).leftSunTime
        = sumTimes (routeRecords000 M t coords) SunClass.leftSun ∧
    (traverse000 M t coords 0 initState).rightSunTime
        = sumTimes (routeRecords000 M t coords) SunClass.rightSun ∧
    (traverse000 M t coords 0 initState).cumulativeTime
        = ((routeRecords000 M t coords).map (fun r => r.segmentTimeMs)).sum := by
  refine traverse000_inv M t
    (fun s => s.leftSunTime = sumTimes s.records SunClass.leftSun ∧
      s.rightSunTime = sumTimes s.records SunClass.rightSun ∧
      s.cumulativeTime = (s.records.map (fun r => r.segmentTimeMs)).sum)
    ?_ coords 0 initState ⟨by simp [initState, sumTimes], by simp [initState, sumTimes],
      by simp [initState]⟩
  intro s i c1 c2 hs
  obtain ⟨hl, hr, hc⟩ := hs
  obtain ⟨r, hrec, _, _, _, _, _, hcum, hleft, hright⟩ := stepSegment000_spec M t s i c1 c2
  refine ⟨?_, ?_, ?_⟩
  · rw [hleft, hrec, sumTimes_append_singleton, hl]
  · rw [hright, hrec, sumTimes_append_singleton, hr]
  · rw [hcum, hrec, List.map_append, List.sum_append, hc]
    simp

/-- After the page.tsx traversal the tallies are the per-class duration sums
and the clock is the total duration sum. -/
theorem traverseMap_tallies (M : MathOps) (t : ℚ) (coords : List Coordinate) :
    (traverseMap M t coords 0 initState).leftSunTime
        = sumTimes (routeRecordsMap M t coords) SunClass.leftSun ∧
    (traverseMap M t coords 0 initState).rightSunTime
        = sumTimes (routeRecordsMap M t coords) SunClass.rightSun ∧
    (traverseMap M t coords 0 initState).cumulativeTime
        = ((routeRecordsMap M t coords).map (fun r => r.segmentTimeMs)).sum := by
  refine traverseMap_inv M t
    (fun s => s.leftSunTime = sumTimes s.records SunClass.leftSun ∧
      s.rightSunTime = sumTimes s.records SunClass.rightSun ∧
      s.cumulativeTime = (s.records.map (fun r => r.segmentTimeMs)).sum)
    ?_ coords 0 initState ⟨by simp [initState, sumTimes], by simp [initState, sumTimes],
      by simp [initState]⟩
  intro s i c1 c2 hs
  obtain ⟨hl, hr, hc⟩ := hs
  obtain ⟨r, hrec, _, _, _, _, _, hcum, hleft, hright⟩ := stepSegmentMap_spec M t s i c1 c2
  refine ⟨?_, ?_, ?_⟩
  · rw [hleft, hrec, sumTimes_append_singleton, hl]
  · rw [hright, hrec, sumTimes_append_singleton, hr]
  · rw [hcum, hrec, List.map_append, List.sum_append, hc]
    simp

/-- All part_000 record durations are nonnegative whenever the duration
estimate is. -/
theorem records000_time_nonneg (M : MathOps) (t : ℚ) (coords : List Coordinate)
    (hops : ∀ a b c d : ℚ, 0 ≤ timePerSegment M a b c d 50) :
    ∀ r ∈ routeRecords000 M t coords, 0 ≤ r.segmentTimeMs := by
  refine traverse000_inv M t (fun s => ∀ r ∈ s.records, 0 ≤ r.segmentTimeMs) ?_ coords 0
    initState (by intro r hr; simp [initState] at hr)
  intro s i c1 c2 hs r hr
  obtain ⟨r', hrec, _, _, htime, _, _, _, _, _⟩ := stepSegment000_spec M t s i c1 c2
  rw [hrec] at hr
  rcases List.mem_append.mp hr with h | h
  · exact hs r h
  · rw [List.mem_singleton.mp h, htime]
    exact hops _ _ _ _

/-- All page.tsx record durations are nonnegative whenever the duration
estimate is. -/
theorem recordsMap_time_nonneg (M : MathOps) (t : ℚ) (coords : List Coordinate)
    (hops : ∀ a b c d : ℚ, 0 ≤ timePerSegmentMap M a b c d 15) :
    ∀ r ∈ routeRecordsMap M t coords, 0 ≤ r.segmentTimeMs := by
  refine traverseMap_inv M t (fun s => ∀ r ∈ s.records, 0 ≤ r.segmentTimeMs) ?_ coords 0
    initState (by intro r hr; simp [initState] at hr)
  intro s i c1 c2 hs r hr
  obtain ⟨r', hrec, _, _, htime, _, _, _, _, _⟩ := stepSegmentMap_spec M t s i c1 c2
  rw [hrec] at hr
  rcases List.mem_append.mp hr with h | h
  · exact hs r h
  · rw [List.mem_singleton.mp h, htime]
    exact hops _ _ _ _

/-- C6 (confirmed): in both variants, each segment's duration is added to
exactly one of the three buckets: the left tally is the sum of left-sun
durations, the right tally the sum of right-sun durations, left + right +
(no-sun durations) equals the total elapsed time on the TravelClock, and —
since segment durations are nonnegative (hypotheses on the duration
estimate, true of the haversine formula) — left + right is at most the total
elapsed time. -/
theorem c6_time_conservation (M : MathOps) (t : ℚ) (coords : List Coordinate)
    (hops : ∀ a b c d : ℚ, 0 ≤ timePerSegment M a b c d 50)
    (hopsMap : ∀ a b c d : ℚ, 0 ≤ timePerSegmentMap M a b c d 15) :
    ((traverse000 M t coords 0 initState).leftSunTime
        = sumTimes (routeRecords000 M t coords) SunClass.leftSun ∧
      (traverse000 M t coords 0 initState).rightSunTime
        = sumTimes (routeRecords000 M t coords) SunClass.rightSun ∧
      (traverse000 M t coords 0 initState).leftSunTime
          + (traverse000 M t coords 0 initState).rightSunTime
          + sumTimes (routeRecords000 M t coords) SunClass.noSun
        = (traverse000 M t coords 0 initState).cumulativeTime ∧
      (traverse000 M t coords 0 initState).leftSunTime
          + (traverse000 M t coords 0 initState).rightSunTime
        ≤ (traverse000 M t coords 0 initState).cumulativeTime) ∧
    ((traverseMap M t coords 0 initState).leftSunTime
        = sumTimes (routeRecordsMap M t coords) SunClass.leftSun ∧
      (traverseMap M t coords 0 initState).rightSunTime
        = sumTimes (routeRecordsMap M t coords) SunClass.rightSun ∧
      (traverseMap M t coords 0 initState).leftSunTime
          + (traverseMap M t coords 0 initState).rightSunTime
          + sumTimes (routeRecordsMap M t coords) SunClass.noSun
        = (traverseMap M t coords 0 initState).cumulativeTime ∧
      (traverseMap M t coords 0 initState).leftSunTime
          + (traverseMap M t coords 0 initState).rightSunTime
        ≤ (traverseMap M t coords 0 initState).cumulativeTime) := by
  constructor
  · obtain ⟨hl, hr, hc⟩ := traverse000_tallies M t coords
    have hnn := records000_time_nonneg M t coords hops
    have hpart := sumTimes_partition (routeRecords000 M t coords)
    have hns := sumTimes_nonneg (routeRecords000 M t coords) SunClass.noSun hnn
    refine ⟨hl, hr, ?_, ?_⟩
    · rw [hl, hr, hc]
      linarith
    · rw [hl, hr, hc]
      linarith
  · obtain ⟨hl, hr, hc⟩ := traverseMap_tallies M t coords
    have hnn := recordsMap_time_nonneg M t coords hopsMap
    have hpart := sumTimes_partition (routeRecordsMap M t coords)
    have hns := sumTimes_nonneg (routeRecordsMap M t coords) SunClass.noSun hnn
    refine ⟨hl, hr, ?_, ?_⟩
    · rw [hl, hr, hc]
      linarith
    · rw [hl, hr, hc]
      linarith

/-- Under `demoOps` the part_000 duration estimate is always nonnegative. -/
theorem demoOps_time_nonneg (a b c d : ℚ) : 0 ≤ timePerSegment demoOps a b c d 50 := by
  simp only [timePerSegment, calculateDistance, demoOps]
  positivity

/-- Under `demoOps` the page.tsx duration estimate is always nonnegative. -/
theorem demoOps_timeMap_nonneg (a b c d : ℚ) : 0 ≤ timePerSegmentMap demoOps a b c d 15 := by
  simp only [timePerSegmentMap, demoOps]
  positivity

/-- Witness for `c6_time_conservation`: the part_000 inequality on the demo
route. -/
theorem c6_time_conservation_witness :
    (traverse000 demoOps 0 demoRoute 0 initState).leftSunTime
        + (traverse000 demoOps 0 demoRoute 0 initState).rightSunTime
      ≤ (traverse000 demoOps 0 demoRoute 0 initState).cumulativeTime :=
  ((c6_time_conservation demoOps 0 demoRoute demoOps_time_nonneg
    demoOps_timeMap_nonneg).1).2.2.2

/-!
Claim C10.
-/

/-- C10 (confirmed): a segment whose two endpoints coincide has haversine
distance exactly 0 (in both variants), hence duration 0 ms; the part_000
step on it leaves the clock and both tallies unchanged, yet still emits one
classified record, with duration 0.  The hypotheses are the exact identities
`sin 0 = 0`, `sqrt 0 = 0` and `atan2 0 (sqrt 1) = 0` of the real `Math`
functions. -/
theorem c10_zero_length_segment (M : MathOps) (t : ℚ) (s : TraverseState) (i : ℕ)
    (c : Coordinate) (hsin : M.sin 0 = 0) (hsqrt : M.sqrt 0 = 0)
    (hatan : M.atan2 0 (M.sqrt 1) = 0) :
    calculateDistance M c.lat c.lng c.lat c.lng = 0 ∧
    timePerSegment M c.lat c.lng c.lat c.lng 50 = 0 ∧
    timePerSegmentMap M c.lat c.lng c.lat c.lng 15 = 0 ∧
    (stepSegment000 M t s i c c).cumulativeTime = s.cumulativeTime ∧
    (stepSegment000 M t s i c c).leftSunTime = s.leftSunTime ∧
    (stepSegment000 M t s i c c).rightSunTime = s.rightSunTime ∧
    ∃ r, (stepSegment000 M t s i c c).records = s.records ++ [r] ∧ r.segmentTimeMs = 0 := by
  have e1 : (c.lat - c.lat) * M.pi / 180 / 2 = 0 := by ring
  have e2 : (c.lng - c.lng) * M.pi / 180 / 2 = 0 := by ring
  have hdist : calculateDistance M c.lat c.lng c.lat c.lng = 0 := by
    simp only [calculateDistance, e1, e2, hsin]
    norm_num [hsqrt, hatan]
  have htime : timePerSegment M c.lat c.lng c.lat c.lng 50 = 0 := by
    simp only [timePerSegment, hdist]
    norm_num
  have htimeMap : timePerSegmentMap M c.lat c.lng c.lat c.lng 15 = 0 := by
    simp only [timePerSegmentMap, e1, e2, hsin]
    norm_num [hsqrt, hatan]
  obtain ⟨r, hrec, _, _, hrtime, _, _, hcum, hleft, hright⟩ := stepSegment000_spec M t s i c c
  rw [htime] at hrtime
  refine ⟨hdist, htime, htimeMap, ?_, ?_, ?_, ⟨r, hrec, hrtime⟩⟩
  · rw [hcum, hrtime]
    ring
  · rw [hleft, hrtime]
    simp
  · rw [hright, hrtime]
    simp

/-- Witness for `c10_zero_length_segment`: zero distance at a concrete
coordinate under `demoOps`. -/
theorem c10_zero_length_segment_witness :
    calculateDistance demoOps (1 : ℚ) 2 1 2 = 0 :=
  (c10_zero_length_segment demoOps 0 initState 0 ⟨1, 2⟩ rfl rfl rfl).1

/-!
Claim C3.
-/

/-- The sum of the two independently-rounded percentages is 100 or 101:
rounding half-up can push both sides up at a half-integral split. -/
theorem jsRound_percent_sum (l r : ℚ) (hpos : 0 < l + r) :
    jsRound (l / (l + r) * 100) + jsRound (r / (l + r) * 100) = 100 ∨
    jsRound (l / (l + r) * 100) + jsRound (r / (l + r) * 100) = 101 := by
  have hT : l + r ≠ 0 := ne_of_gt hpos
  have hxy : l / (l + r) * 100 + r / (l + r) * 100 = 100 := by
    field_simp
    ring
  rw [jsRound_eq_floor, jsRound_eq_floor]
  set x := l / (l + r) * 100
  set y := r / (l + r) * 100
  have h1 : (⌊x + 1 / 2⌋ : ℚ) ≤ x + 1 / 2 := Int.floor_le _
  have h2 : x + 1 / 2 - 1 < (⌊x + 1 / 2⌋ : ℚ) := Int.sub_one_lt_floor _
  have h3 : (⌊y + 1 / 2⌋ : ℚ) ≤ y + 1 / 2 := Int.floor_le _
  have h4 : y + 1 / 2 - 1 < (⌊y + 1 / 2⌋ : ℚ) := Int.sub_one_lt_floor _
  have hup : ⌊x + 1 / 2⌋ + ⌊y + 1 / 2⌋ ≤ 101 := by
    have hq : ((⌊x + 1 / 2⌋ + ⌊y + 1 / 2⌋ : ℤ) : ℚ) ≤ 101 := by
      push_cast
      linarith
    exact_mod_cast hq
  have hlo : (99 : ℤ) < ⌊x + 1 / 2⌋ + ⌊y + 1 / 2⌋ := by
    have hq : (99 : ℚ) < ((⌊x + 1 / 2⌋ + ⌊y + 1 / 2⌋ : ℤ) : ℚ) := by
      push_cast
      linarith
    exact_mod_cast hq
  omega

/-- C3 (corrected): the code rounds each side independently (rightPercent is
NOT computed as 100 - leftPercent), so for a valid route with positive total
sun time the displayed percentages sum to 100 OR to 101 — 101 occurring
exactly when 100·left/total is half-integral (see the counterexample); when
the total sun time is 0 both percentages are 0, as claimed. -/
theorem c3_percent_sum (M : MathOps) (t : ℚ) (coords : List Coordinate)
    (h2 : 2 ≤ coords.length)
    (hops : ∀ a b c d : ℚ, 0 ≤ timePerSegment M a b c d 50) :
    ∃ out, drawRouteSun000 M t coords = .ok out ∧
      (0 < out.totalSunTime →
        out.leftPercent + out.rightPercent = 100 ∨
        out.leftPercent + out.rightPercent = 101) ∧
      (out.totalSunTime = 0 → out.leftPercent = 0 ∧ out.rightPercent = 0) := by
  simp only [drawRouteSun000]
  rw [if_neg (by omega)]
  refine ⟨_, rfl, ?_, ?_⟩
  · intro hpos
    obtain ⟨hl, hr, _⟩ := traverse000_tallies M t coords
    have hnn := records000_time_nonneg M t coords hops
    have hlnn : 0 ≤ (traverse000 M t coords 0 initState).leftSunTime := by
      rw [hl]
      exact sumTimes_nonneg _ _ hnn
    have hrnn : 0 ≤ (traverse000 M t coords 0 initState).rightSunTime := by
      rw [hr]
      exact sumTimes_nonneg _ _ hnn
    simp only [percents000] at hpos ⊢
    rw [if_pos hpos, if_pos hpos]
    exact jsRound_percent_sum _ _ hpos
  · intro h0
    simp only [percents000] at h0 ⊢
    rw [if_neg (by rw [h0]; norm_num), if_neg (by rw [h0]; norm_num)]
    exact ⟨rfl, rfl⟩

/-- Witness for `c3_percent_sum` at the 9-point equator route. -/
theorem c3_percent_sum_witness :
    ∃ out, drawRouteSun000 demoOps c3StartTime c3Route = .ok out ∧
      (0 < out.totalSunTime →
        out.leftPercent + out.rightPercent = 100 ∨
        out.leftPercent + out.rightPercent = 101) ∧
      (out.totalSunTime = 0 → out.leftPercent = 0 ∧ out.rightPercent = 0) :=
  c3_percent_sum demoOps c3StartTime c3Route
    (by decide) demoOps_time_nonneg

set_option maxRecDepth 100000 in
set_option maxHeartbeats 1000000 in
/-- C3 counterexample: on the 9-point equator route starting at `c3StartTime`
the total sun time is positive and the reported percentages are 13% and 88%,
summing to 101, not 100 (the split is exactly 12.5/87.5 and both sides round
up). -/
theorem c3_counterexample :
    (drawRouteSun000 demoOps c3StartTime c3Route).map
        (fun o => (decide (0 < o.totalSunTime), o.leftPercent, o.rightPercent))
      = .ok (true, 13, 88) ∧ (13 : ℤ) + 88 ≠ 100 := by
  constructor
  · with_unfolding_all rfl
  · norm_num

end Veil
